import Mathlib

deriving instance DecidableEq for Except

/-!
Verification of the IncognitoAudit ZK Compliance Auditor core logic.

The development shallowly embeds the compliance predicate, the data service
lookups, the aggregation statistics, the audit session operations and the
prover control flow of the TypeScript sources.  JavaScript numbers that hold
unix timestamps and scores are embedded as `Int`; the floating point seconds
to days conversion inside the predicate is embedded over `ℚ` (every value the
boundary theorems touch is exactly representable as an IEEE double, where the
rational and the floating point computation agree).  Fallible methods return
`Except String`; `Date.now()` captured inside a method becomes an explicit
argument supplied by the environment.
-/

/-- Employee training record (interface `EmployeeTrainingRecord` in
`DataService.ts`).  Timestamps are unix seconds except `lastLogin`, which the
source keeps in milliseconds. -/
structure EmployeeTrainingRecord where
  employeeId : String
  employeeName : String
  department : String
  trainingA_date : Int
  trainingB_score : Int
  sensitiveNotes : String
  lastLogin : Int
  managerApproval : Bool
deriving Repr, DecidableEq

/-- Requirements block of a compliance policy. -/
structure PolicyRequirements where
  trainingA_maxAge : Int
  trainingB_minScore : Int
  managerApproval : Bool
deriving Repr, DecidableEq

/-- Compliance policy (interface `CompliancePolicy` in `DataService.ts`). -/
structure CompliancePolicy where
  id : String
  name : String
  description : String
  requirements : PolicyRequirements
  created : Int
  lastModified : Int
deriving Repr, DecidableEq

/-- Reason string pushed when Training A is expired:
`Training A expired N days ago` with `N = Math.floor(daysSinceTrainingA - maxAge)`. -/
def trainingAExpiredReason (daysSinceTrainingA : ℚ) (maxAge : Int) : String :=
  "Training A expired " ++ toString (Int.floor (daysSinceTrainingA - (maxAge : ℚ))) ++ " days ago"

/-- Reason string pushed when the Training B score is below the minimum. -/
def trainingBScoreReason (score minScore : Int) : String :=
  "Training B score (" ++ toString score ++ "%) below minimum (" ++ toString minScore ++ "%)"

/-- Reason string pushed when manager approval is required but absent. -/
def managerApprovalReason : String :=
  "Manager approval required but not obtained"

/-- Body of `DataService.checkCompliance` (file `DataService.ts`) after both
lookups resolved, identical to the body of `MockDataGenerator.checkCompliance`
(file `MockDataGenerator.ts`).  The argument `now` is the value
`Date.now() / 1000` that the source captures from the wall clock at the start
of the check.  The mutable pair `(compliant, reasons)` of the source is
threaded through the three sequential condition checks as `s0`..`s3`. -/
def checkComplianceResolved (e : EmployeeTrainingRecord) (p : CompliancePolicy)
    (now : ℚ) : Bool × List String :=
  let daysSinceTrainingA : ℚ := (now - (e.trainingA_date : ℚ)) / (24 * 60 * 60)
  let s0 : Bool × List String := (true, [])
  let s1 : Bool × List String :=
    if daysSinceTrainingA > (p.requirements.trainingA_maxAge : ℚ) then
      (false, s0.2 ++ [trainingAExpiredReason daysSinceTrainingA p.requirements.trainingA_maxAge])
    else s0
  let s2 : Bool × List String :=
    if e.trainingB_score < p.requirements.trainingB_minScore then
      (false, s1.2 ++ [trainingBScoreReason e.trainingB_score p.requirements.trainingB_minScore])
    else s1
  let s3 : Bool × List String :=
    if p.requirements.managerApproval && !e.managerApproval then
      (false, s2.2 ++ [managerApprovalReason])
    else s2
  s3

/-- Local validation function of the contract test
(`contracts/ZKComplianceAuditor.test.ts`): a fixed 365 day window with an
inclusive `>=` cutoff comparison and an inclusive minimum score. -/
def isComplianceValid (trainingADate trainingBScore currentTime minScore : Int) : Bool :=
  let oneYearSeconds : Int := 31536000
  let cutoffDate : Int := currentTime - oneYearSeconds
  let dateValid : Bool := decide (trainingADate ≥ cutoffDate)
  let scoreValid : Bool := decide (trainingBScore ≥ minScore)
  dateValid && scoreValid

/-- The `DataService` class state.  `isInitialized` is the flag set by
`initialize()`.  The source resolves records by calling
`createInitialEmployeeData()` / `createInitialPolicyData()` inside a
`try { ... } catch` block; the outcome of that retrieval (either the list of
records or a thrown error) is the service's connection to its backing data
source, embedded here as an `Except` field so that the catch branches of
`getEmployee`, `getAllEmployees` and `getPolicy` are exercised exactly as
written.  The concrete fixture of the source is `initialDataService` below. -/
structure DataService where
  isInitialized : Bool
  employeeSource : Except String (List EmployeeTrainingRecord)
  policySource : Except String (List CompliancePolicy)

/-- `DataService.getEmployee`: throws when the service is not initialized,
otherwise returns the first record with the requested id or `null`; a
retrieval error is caught and converted to `null`. -/
def DataService.getEmployee (svc : DataService) (employeeId : String) :
    Except String (Option EmployeeTrainingRecord) :=
  if svc.isInitialized = false then
    Except.error "Data service not initialized"
  else
    match svc.employeeSource with
    | Except.ok employees => Except.ok (employees.find? (fun emp => emp.employeeId == employeeId))
    | Except.error _ => Except.ok none

/-- `DataService.getAllEmployees`: throws when not initialized, otherwise
returns every record; a retrieval error is caught and converted to `[]`. -/
def DataService.getAllEmployees (svc : DataService) :
    Except String (List EmployeeTrainingRecord) :=
  if svc.isInitialized = false then
    Except.error "Data service not initialized"
  else
    match svc.employeeSource with
    | Except.ok employees => Except.ok employees
    | Except.error _ => Except.ok []

/-- `DataService.getPolicy`: throws when not initialized, otherwise returns
the first policy with the requested id or `null`; a retrieval error is caught
and converted to `null`. -/
def DataService.getPolicy (svc : DataService) (policyId : String) :
    Except String (Option CompliancePolicy) :=
  if svc.isInitialized = false then
    Except.error "Data service not initialized"
  else
    match svc.policySource with
    | Except.ok policies => Except.ok (policies.find? (fun policy => policy.id == policyId))
    | Except.error _ => Except.ok none

/-- `DataService.checkCompliance`: resolves the employee and the policy, short
circuits to the not-found result when either is `null`, and otherwise runs the
three condition checks.  `now` is the wall clock value `Date.now() / 1000`
that the source reads inside the method. -/
def DataService.checkCompliance (svc : DataService) (employeeId policyId : String)
    (now : ℚ) : Except String (Bool × List String) := do
  let employee ← DataService.getEmployee svc employeeId
  let policy ← DataService.getPolicy svc policyId
  match employee, policy with
  | some e, some p => pure (checkComplianceResolved e p now)
  | _, _ => pure (false, ["Employee or policy not found"])

/-- The employee list the service works over: the retrieved records, or `[]`
when the retrieval errored (the caught branch). -/
def DataService.employeesOf (svc : DataService) : List EmployeeTrainingRecord :=
  match svc.employeeSource with
  | Except.ok employees => employees
  | Except.error _ => []

/-- Whether `checkCompliance` reports `compliant = true` for the given ids. -/
def DataService.isCompliantB (svc : DataService) (employeeId policyId : String)
    (now : ℚ) : Bool :=
  match DataService.checkCompliance svc employeeId policyId now with
  | Except.ok r => r.1
  | Except.error _ => false

/-- Statistics record returned by `DataService.getComplianceStatistics` (and
by the identical `MockDataGenerator.getComplianceStatistics`). -/
structure ComplianceStatistics where
  totalEmployees : Nat
  compliantEmployees : Nat
  nonCompliantEmployees : Nat
  complianceRate : ℚ
deriving Repr, DecidableEq

/-- Loop body of `getComplianceStatistics`: one `checkCompliance` call per
employee, incrementing the compliant counter. -/
def DataService.complianceCountStep (svc : DataService) (policyId : String) (now : ℚ)
    (acc : Nat) (employee : EmployeeTrainingRecord) : Except String Nat := do
  let r ← DataService.checkCompliance svc employee.employeeId policyId now
  pure (if r.1 then acc + 1 else acc)

/-- `DataService.getComplianceStatistics`: counts compliant employees over
`getAllEmployees()` and computes
`complianceRate = length > 0 ? (compliantCount / length) * 100 : 0` with
floating point division, embedded as exact division in `ℚ`. -/
def DataService.getComplianceStatistics (svc : DataService) (policyId : String)
    (now : ℚ) : Except String ComplianceStatistics := do
  let employees ← DataService.getAllEmployees svc
  let compliantCount ← employees.foldlM (DataService.complianceCountStep svc policyId now) 0
  pure {
    totalEmployees := employees.length
    compliantEmployees := compliantCount
    nonCompliantEmployees := employees.length - compliantCount
    complianceRate :=
      if employees.length > 0 then ((compliantCount : ℚ) / (employees.length : ℚ)) * 100 else 0 }

/-- First record of the `createInitialEmployeeData()` fixture.  The source
fills the timestamps from the wall clock; `nowSec` stands for
`Math.floor(Date.now() / 1000)` and `nowMs` for `Date.now()`. -/
def emp001 (nowSec nowMs : Int) : EmployeeTrainingRecord :=
  { employeeId := "EMP001"
    employeeName := "Alice Johnson"
    department := "IT Security"
    trainingA_date := nowSec - 30 * 24 * 60 * 60
    trainingB_score := 92
    sensitiveNotes := "Advanced security clearance, completed all modules with distinction"
    lastLogin := nowMs - 2 * 60 * 60 * 1000
    managerApproval := true }

/-- Second record of the `createInitialEmployeeData()` fixture. -/
def emp002 (nowSec nowMs : Int) : EmployeeTrainingRecord :=
  { employeeId := "EMP002"
    employeeName := "Bob Smith"
    department := "Human Resources"
    trainingA_date := nowSec - 60 * 24 * 60 * 60
    trainingB_score := 85
    sensitiveNotes := "HR representative, handles sensitive employee data"
    lastLogin := nowMs - 4 * 60 * 60 * 1000
    managerApproval := true }

/-- Third record of the `createInitialEmployeeData()` fixture: expired
training, score below threshold, no approval. -/
def emp003 (nowSec nowMs : Int) : EmployeeTrainingRecord :=
  { employeeId := "EMP003"
    employeeName := "Carol Davis"
    department := "Finance"
    trainingA_date := nowSec - 400 * 24 * 60 * 60
    trainingB_score := 78
    sensitiveNotes := "Finance analyst, needs updated compliance training"
    lastLogin := nowMs - 24 * 60 * 60 * 1000
    managerApproval := false }

/-- The three-record fixture of `createInitialEmployeeData()`. -/
def initialEmployeeData (nowSec nowMs : Int) : List EmployeeTrainingRecord :=
  [emp001 nowSec nowMs, emp002 nowSec nowMs, emp003 nowSec nowMs]

/-- The policy of the `createInitialPolicyData()` fixture. -/
def policy001 (nowMs : Int) : CompliancePolicy :=
  { id := "POLICY_001"
    name := "Mandatory Training Compliance"
    description := "Requires Training A completion within 365 days and Training B score >= 80%"
    requirements := { trainingA_maxAge := 365, trainingB_minScore := 80, managerApproval := true }
    created := nowMs - 30 * 24 * 60 * 60 * 1000
    lastModified := nowMs - 7 * 24 * 60 * 60 * 1000 }

/-- The one-policy fixture of `createInitialPolicyData()`. -/
def initialPolicyData (nowMs : Int) : List CompliancePolicy :=
  [policy001 nowMs]

/-- An initialized service over the source fixture. -/
def initialDataService (nowSec nowMs : Int) : DataService :=
  { isInitialized := true
    employeeSource := Except.ok (initialEmployeeData nowSec nowMs)
    policySource := Except.ok (initialPolicyData nowMs) }

/-- The fixture service at the reference instant 1700000000 seconds. -/
def sampleService : DataService :=
  initialDataService 1700000000 1700000000000

/-- Audit session record (interface `AuditSession` in `DataService.ts`).  The
status strings of the source are `pending`, `in-progress`, `completed` and
`failed`; the optional `results` field is never touched by the session
operations and is omitted. -/
structure AuditSession where
  id : String
  policyId : String
  auditorId : String
  employees : List String
  status : String
  created : Int
deriving Repr, DecidableEq

/-- Key-value session store.  The production backend
(`MidnightPrivateStateManager.storeEncrypted` / `retrieveDecrypted`) delegates
to an unimplemented SDK stub; the store is embedded by the key-value contract
those methods expose, as implemented by the working in-memory managers of the
repository (`MockShieldedState` and `PrivateStateManager`, both `Map.set` /
`Map.get` on string keys). -/
def SessionStore : Type := String → Option AuditSession

/-- `storeEncrypted` on the session slice of the store: overwrite the value at
the key. -/
def storeEncryptedSession (store : SessionStore) (key : String) (value : AuditSession) :
    SessionStore :=
  fun k => if k = key then some value else store k

/-- The store with no session saved. -/
def emptySessionStore : SessionStore := fun _ => none

/-- `DataService.createAuditSession`: throws when not initialized; otherwise
builds a session with `status: 'pending'` and the given employee ids, stores
it under `audit:` + id and returns it.  `nowMs` stands for the `Date.now()`
used both inside the generated id and as `created`; `randSuffix` stands for
`Math.random().toString(36).substring(7)`. -/
def DataService.createAuditSession (isInit : Bool) (store : SessionStore)
    (policyId auditorId : String) (employeeIds : List String)
    (nowMs : Int) (randSuffix : String) :
    Except String (AuditSession × SessionStore) :=
  if isInit = false then
    Except.error "Data service not initialized"
  else
    let session : AuditSession :=
      { id := "AUDIT_" ++ toString nowMs ++ "_" ++ randSuffix
        policyId := policyId
        auditorId := auditorId
        employees := employeeIds
        status := "pending"
        created := nowMs }
    Except.ok (session, storeEncryptedSession store ("audit:" ++ session.id) session)

/-- `DataService.updateAuditSession`: throws when not initialized; otherwise
stores the supplied session under `audit:` + id without inspecting it. -/
def DataService.updateAuditSession (isInit : Bool) (store : SessionStore)
    (session : AuditSession) : Except String SessionStore :=
  if isInit = false then
    Except.error "Data service not initialized"
  else
    Except.ok (storeEncryptedSession store ("audit:" ++ session.id) session)

/-- `DataService.getAuditSession`: throws when not initialized; otherwise
returns the stored session or `null`. -/
def DataService.getAuditSession (isInit : Bool) (store : SessionStore)
    (sessionId : String) : Except String (Option AuditSession) :=
  if isInit = false then
    Except.error "Data service not initialized"
  else
    Except.ok (store ("audit:" ++ sessionId))

/-- Private training data handed to the prover (interface
`PrivateTrainingData` in `ZKComplianceProver.ts`). -/
structure PrivateTrainingData where
  employeeId : String
  trainingA_date : Int
  trainingB_score : Int
  departmentId : String
  sensitiveNotes : String
deriving Repr, DecidableEq

/-- Public audit data (interface `PublicAuditData` in `ZKComplianceProver.ts`). -/
structure PublicAuditData where
  current_time : Int
  policy_hash : String
  audit_id : String
  auditor_public_key : String
deriving Repr, DecidableEq

/-- Proof object of the SDK back-ends (interface `MidnightProof`); only the
`proofData` payload is consumed by the prover. -/
structure MidnightProof where
  proofData : String
deriving Repr, DecidableEq

/-- Compliance proof assembled by `generateComplianceProof` (interface
`ComplianceProof` in `ZKComplianceProver.ts`). -/
structure ComplianceProof where
  proof : String
  publicInputs : PublicAuditData
  proofHash : String
  timestamp : Int
deriving Repr, DecidableEq

/-- The error thrown by both `generateActualProof` stubs. -/
def notYetImplementedProofMsg : String :=
  "Actual Midnight Protocol proof generation not yet implemented. Please use the official Midnight Protocol SDK when available."

/-- The error thrown by both `submitActualTransaction` stubs. -/
def notYetImplementedTxMsg : String :=
  "Actual Midnight Protocol transaction submission not yet implemented. Please use the official Midnight Protocol SDK when available."

/-- `MidnightProtocolSDK.generateActualProof` (file `MidnightProtocolSDK.ts`):
throws unconditionally; the proof generation parameters are never read. -/
def MidnightProtocolSDK.generateActualProof : Except String MidnightProof :=
  Except.error notYetImplementedProofMsg

/-- `OfficialMidnightSDK.generateActualProof` (file `MidnightSDKAdapter.ts`):
throws unconditionally; the proof generation parameters are never read. -/
def OfficialMidnightSDK.generateActualProof : Except String MidnightProof :=
  Except.error notYetImplementedProofMsg

/-- `MidnightProtocolSDK.generateProof`: connection guard, then the actual
proof generation whose error is caught, logged and rethrown. -/
def MidnightProtocolSDK.generateProof (isConnected : Bool) : Except String MidnightProof :=
  if isConnected = false then
    Except.error "Not connected to Midnight Protocol network"
  else
    match MidnightProtocolSDK.generateActualProof with
    | Except.ok proof => Except.ok proof
    | Except.error e => Except.error e

/-- `OfficialMidnightSDK.generateProof`: connection guard, then the actual
proof generation whose error is caught, logged and rethrown. -/
def OfficialMidnightSDK.generateProof (isConnected : Bool) : Except String MidnightProof :=
  if isConnected = false then
    Except.error "Not connected to Midnight Protocol network"
  else
    match OfficialMidnightSDK.generateActualProof with
    | Except.ok proof => Except.ok proof
    | Except.error e => Except.error e

/-- `MidnightSDKAdapter.generateProof`: dispatches to the official or the
protocol back-end (`this.useOfficialSDK`). -/
def MidnightSDKAdapter.generateProof (useOfficialSDK isConnected : Bool) :
    Except String MidnightProof :=
  if useOfficialSDK then OfficialMidnightSDK.generateProof isConnected
  else MidnightProtocolSDK.generateProof isConnected

/-- `MidnightSDKAdapter.submitTransaction`: both back-ends guard the
connection and then rethrow the unimplemented transaction submission error;
the result is the transaction, of which only the hash is consumed. -/
def MidnightSDKAdapter.submitTransaction (_useOfficialSDK isConnected : Bool) :
    Except String String :=
  if isConnected = false then
    Except.error "Not connected to Midnight Protocol network"
  else
    Except.error notYetImplementedTxMsg

/-- Conversion from a data service record to `PrivateTrainingData` performed
inside `ZKComplianceProver.loadPrivateData`. -/
def ZKComplianceProver.toPrivateTrainingData (e : EmployeeTrainingRecord) :
    PrivateTrainingData :=
  { employeeId := e.employeeId
    trainingA_date := e.trainingA_date
    trainingB_score := e.trainingB_score
    departmentId := e.department
    sensitiveNotes := e.sensitiveNotes }

/-- `ZKComplianceProver.validatePrivateData`: the first guard is the
JavaScript truthiness test
`!data.employeeId || !data.trainingA_date || !data.trainingB_score || !data.departmentId`,
under which the numbers `trainingA_date = 0` and `trainingB_score = 0` are
falsy and the empty strings are falsy. -/
def ZKComplianceProver.validatePrivateData (data : PrivateTrainingData) :
    Except String Unit :=
  if data.employeeId = "" ∨ data.trainingA_date = 0 ∨ data.trainingB_score = 0
      ∨ data.departmentId = "" then
    Except.error "Invalid private data: missing required fields"
  else if data.trainingB_score < 0 ∨ 100 < data.trainingB_score then
    Except.error "Invalid private data: training score out of range"
  else if data.trainingA_date < 0 then
    Except.error "Invalid private data: invalid training date"
  else
    Except.ok ()

/-- The `try` block of `ZKComplianceProver.loadPrivateData`: resolve the
employee, fail when `null`, convert and validate. -/
def ZKComplianceProver.loadPrivateDataInner (svc : DataService) (employeeId : String) :
    Except String PrivateTrainingData := do
  let employeeData ← DataService.getEmployee svc employeeId
  match employeeData with
  | none => Except.error "No private training data found for employee"
  | some e =>
      let privateData := ZKComplianceProver.toPrivateTrainingData e
      ZKComplianceProver.validatePrivateData privateData
      pure privateData

/-- `ZKComplianceProver.loadPrivateData`: the catch block replaces every error
of the `try` block with a single message. -/
def ZKComplianceProver.loadPrivateData (svc : DataService) (employeeId : String) :
    Except String PrivateTrainingData :=
  match ZKComplianceProver.loadPrivateDataInner svc employeeId with
  | Except.ok d => Except.ok d
  | Except.error _ => Except.error "Failed to load private training data"

/-- `ZKComplianceProver.validateInputData`: the guards of the source in order;
the string guards `!s || s.length === 0` both reduce to the empty string test
and `!privateData.trainingA_date || privateData.trainingA_date <= 0` keeps
both disjuncts. -/
def ZKComplianceProver.validateInputData (privateData : PrivateTrainingData)
    (publicData : PublicAuditData) : Except String Unit :=
  if privateData.employeeId = "" then
    Except.error "Employee ID is required"
  else if privateData.trainingA_date = 0 ∨ privateData.trainingA_date ≤ 0 then
    Except.error "Valid Training A completion date is required"
  else if privateData.trainingB_score < 0 ∨ 100 < privateData.trainingB_score then
    Except.error "Training B score must be between 0 and 100"
  else if publicData.policy_hash = "" then
    Except.error "Policy hash is required"
  else if publicData.audit_id = "" then
    Except.error "Audit ID is required"
  else
    Except.ok ()

/-- The `try` block of `ZKComplianceProver.generateComplianceProof`: validate,
then request the proof from the SDK adapter.  The hashing and BigInt circuit
input preparation between the two steps is elided: it feeds only the SDK call,
which never reads its parameters before throwing, and any error it could raise
lands in the same catch as the SDK error.  The `proofHash` of the success
branch stands for `createProofHash(proof, publicData)`; the branch is dead
because the SDK call always errors (proved below), so its value is never
observed. -/
def ZKComplianceProver.generateComplianceProofInner (useOfficialSDK isConnected : Bool)
    (privateData : PrivateTrainingData) (publicData : PublicAuditData)
    (nowMs : Int) : Except String ComplianceProof := do
  ZKComplianceProver.validateInputData privateData publicData
  let proof ← MidnightSDKAdapter.generateProof useOfficialSDK isConnected
  pure { proof := proof.proofData
         publicInputs := publicData
         proofHash := ""
         timestamp := nowMs }

/-- `ZKComplianceProver.generateComplianceProof`: the catch block wraps any
error of the `try` block. -/
def ZKComplianceProver.generateComplianceProof (useOfficialSDK isConnected : Bool)
    (privateData : PrivateTrainingData) (publicData : PublicAuditData)
    (nowMs : Int) : Except String ComplianceProof :=
  match ZKComplianceProver.generateComplianceProofInner useOfficialSDK isConnected
      privateData publicData nowMs with
  | Except.ok p => Except.ok p
  | Except.error e => Except.error ("Proof generation failed: " ++ e)

/-- `ZKComplianceProver.submitProofToNetwork`: the catch block wraps any error
of the transaction submission. -/
def ZKComplianceProver.submitProofToNetwork (useOfficialSDK isConnected : Bool) :
    Except String String :=
  match MidnightSDKAdapter.submitTransaction useOfficialSDK isConnected with
  | Except.ok txHash => Except.ok txHash
  | Except.error e => Except.error ("Proof submission failed: " ++ e)

/-- Result record of `ZKComplianceProver.runComplianceAudit`. -/
structure AuditRunResult where
  success : Bool
  transactionHash : Option String
  proofHash : String
  verificationTime : Int
  error : Option String
deriving Repr, DecidableEq

/-- The `try` block of `ZKComplianceProver.runComplianceAudit`: load the
private data, build the public data from the wall clock (`nowSec` stands for
`Math.floor(Date.now() / 1000)`), generate the proof, submit it. -/
def ZKComplianceProver.runComplianceAuditInner (svc : DataService)
    (useOfficialSDK isConnected : Bool) (employeeId : String)
    (policyHash auditId auditorPublicKey : String) (nowSec nowMs : Int) :
    Except String (String × String) := do
  let privateData ← ZKComplianceProver.loadPrivateData svc employeeId
  let publicData : PublicAuditData :=
    { current_time := nowSec
      policy_hash := policyHash
      audit_id := auditId
      auditor_public_key := auditorPublicKey }
  let complianceProof ← ZKComplianceProver.generateComplianceProof useOfficialSDK
    isConnected privateData publicData nowMs
  let transactionHash ← ZKComplianceProver.submitProofToNetwork useOfficialSDK isConnected
  pure (transactionHash, complianceProof.proofHash)

/-- `ZKComplianceProver.runComplianceAudit`: success path versus the catch
block, which reports `success: false`, an empty `proofHash` and the caught
error message.  `elapsedMs` stands for `Date.now() - startTime`. -/
def ZKComplianceProver.runComplianceAudit (svc : DataService)
    (useOfficialSDK isConnected : Bool) (employeeId : String)
    (policyHash auditId auditorPublicKey : String) (nowSec nowMs elapsedMs : Int) :
    AuditRunResult :=
  match ZKComplianceProver.runComplianceAuditInner svc useOfficialSDK isConnected
      employeeId policyHash auditId auditorPublicKey nowSec nowMs with
  | Except.ok r =>
      { success := true
        transactionHash := some r.1
        proofHash := r.2
        verificationTime := elapsedMs
        error := none }
  | Except.error e =>
      { success := false
        transactionHash := none
        proofHash := ""
        verificationTime := elapsedMs
        error := some e }

/-- A record that passes every condition of the fixture policy at small
evaluation times: completion at epoch, full score, approval granted. -/
def epochEmployee : EmployeeTrainingRecord :=
  { employeeId := "EMP100"
    employeeName := "Dora Epoch"
    department := "QA"
    trainingA_date := 0
    trainingB_score := 100
    sensitiveNotes := ""
    lastLogin := 0
    managerApproval := true }

/-- A policy with the fixture thresholds and no surrounding bookkeeping. -/
def samplePolicy : CompliancePolicy :=
  { id := "POLICY_100"
    name := "Sample"
    description := ""
    requirements := { trainingA_maxAge := 365, trainingB_minScore := 80, managerApproval := true }
    created := 0
    lastModified := 0 }

/-- An initialized service holding only `epochEmployee` and `samplePolicy`. -/
def epochService : DataService :=
  { isInitialized := true
    employeeSource := Except.ok [epochEmployee]
    policySource := Except.ok [samplePolicy] }

/-- An initialized service whose backing retrievals both error. -/
def failingStoreService : DataService :=
  { isInitialized := true
    employeeSource := Except.error "backing store unreachable"
    policySource := Except.error "backing store unreachable" }

/-- A record exactly at the training age boundary for `samplePolicy` at
evaluation time 1700000000: completed precisely 365 days earlier. -/
def boundaryEmployee : EmployeeTrainingRecord :=
  { employeeId := "EMP200"
    employeeName := "Edge Case"
    department := "QA"
    trainingA_date := 1700000000 - 365 * 24 * 60 * 60
    trainingB_score := 80
    sensitiveNotes := ""
    lastLogin := 0
    managerApproval := true }

/-- A well-formed record whose Training B score is 0, inside the legal score
range. -/
def zeroScoreEmployee : EmployeeTrainingRecord :=
  { employeeId := "EMP300"
    employeeName := "Zed Zero"
    department := "Finance"
    trainingA_date := 1600000000
    trainingB_score := 0
    sensitiveNotes := ""
    lastLogin := 0
    managerApproval := true }

/-- An initialized service holding only `zeroScoreEmployee`. -/
def zeroScoreService : DataService :=
  { isInitialized := true
    employeeSource := Except.ok [zeroScoreEmployee]
    policySource := Except.ok [samplePolicy] }

/-- The session created by `createAuditSession` at 1700000000000 milliseconds
with random suffix `x1`. -/
def sampleSession : AuditSession :=
  { id := "AUDIT_1700000000000_x1"
    policyId := "POLICY_001"
    auditorId := "AUDITOR_1"
    employees := ["EMP001"]
    status := "pending"
    created := 1700000000000 }

/-- Store after creating `sampleSession`. -/
def sessionStore1 : SessionStore :=
  match DataService.createAuditSession true emptySessionStore "POLICY_001" "AUDITOR_1"
      ["EMP001"] 1700000000000 "x1" with
  | Except.ok r => r.2
  | Except.error _ => emptySessionStore

/-- Store after additionally updating the session to `completed`. -/
def sessionStore2 : SessionStore :=
  match DataService.updateAuditSession true sessionStore1
      { sampleSession with status := "completed" } with
  | Except.ok store => store
  | Except.error _ => emptySessionStore

/-- Store after additionally updating the session back to `pending`. -/
def sessionStore3 : SessionStore :=
  match DataService.updateAuditSession true sessionStore2
      { sampleSession with status := "pending" } with
  | Except.ok store => store
  | Except.error _ => emptySessionStore

@[simp]
theorem exceptBindOk {α β : Type} (a : α) (f : α → Except String β) :
    (Except.ok a >>= f) = f a := rfl

@[simp]
theorem exceptBindError {α β : Type} (e : String) (f : α → Except String β) :
    ((Except.error e : Except String α) >>= f) = Except.error e := rfl

theorem checkComplianceResolved_reasons (e : EmployeeTrainingRecord)
    (p : CompliancePolicy) (now : ℚ) :
    (checkComplianceResolved e p now).2 =
      (if (now - (e.trainingA_date : ℚ)) / (24 * 60 * 60) > (p.requirements.trainingA_maxAge : ℚ) then
          [trainingAExpiredReason ((now - (e.trainingA_date : ℚ)) / (24 * 60 * 60))
            p.requirements.trainingA_maxAge]
        else [])
      ++ (if e.trainingB_score < p.requirements.trainingB_minScore then
          [trainingBScoreReason e.trainingB_score p.requirements.trainingB_minScore]
        else [])
      ++ (if p.requirements.managerApproval && !e.managerApproval then
          [managerApprovalReason]
        else []) := by
  simp only [checkComplianceResolved]
  split_ifs <;> simp

theorem checkComplianceResolved_compliant (e : EmployeeTrainingRecord)
    (p : CompliancePolicy) (now : ℚ) :
    (checkComplianceResolved e p now).1 = true ↔
      ¬((now - (e.trainingA_date : ℚ)) / (24 * 60 * 60) > (p.requirements.trainingA_maxAge : ℚ))
      ∧ ¬(e.trainingB_score < p.requirements.trainingB_minScore)
      ∧ (p.requirements.managerApproval && !e.managerApproval) = false := by
  simp only [checkComplianceResolved]
  split_ifs <;> simp_all

/-- Claim C1: for every resolved record, policy and evaluation time, the
predicate returns `compliant = true` exactly when the reasons list is empty,
and the reasons list holds exactly one entry per failed condition in the fixed
order expired training, below-minimum score, missing approval; all three
conditions contribute independently (no short circuit). -/
theorem checkCompliance_compliant_iff_and_ordered_reasons (e : EmployeeTrainingRecord)
    (p : CompliancePolicy) (now : ℚ) :
    ((checkComplianceResolved e p now).1 = true ↔ (checkComplianceResolved e p now).2 = [])
    ∧ (checkComplianceResolved e p now).2 =
      (if (now - (e.trainingA_date : ℚ)) / (24 * 60 * 60) > (p.requirements.trainingA_maxAge : ℚ) then
          [trainingAExpiredReason ((now - (e.trainingA_date : ℚ)) / (24 * 60 * 60))
            p.requirements.trainingA_maxAge]
        else [])
      ++ (if e.trainingB_score < p.requirements.trainingB_minScore then
          [trainingBScoreReason e.trainingB_score p.requirements.trainingB_minScore]
        else [])
      ++ (if p.requirements.managerApproval && !e.managerApproval then
          [managerApprovalReason]
        else []) := by
  refine ⟨?_, checkComplianceResolved_reasons e p now⟩
  rw [checkComplianceResolved_compliant, checkComplianceResolved_reasons]
  split_ifs <;> simp_all

/-- Claim C2: a record whose training age exactly equals
`trainingA_maxAge` days passes the age check (expiry uses strict
greater-than), both in the predicate and in the contract test's
`isComplianceValid`, whose cutoff comparison `trainingADate >= currentTime -
31536000` is inclusive. -/
theorem trainingAge_boundary_inclusive (e : EmployeeTrainingRecord)
    (p : CompliancePolicy) (now : ℚ)
    (h : now - (e.trainingA_date : ℚ) = (p.requirements.trainingA_maxAge : ℚ) * (24 * 60 * 60)) :
    (checkComplianceResolved e p now).2 =
      (if e.trainingB_score < p.requirements.trainingB_minScore then
          [trainingBScoreReason e.trainingB_score p.requirements.trainingB_minScore]
        else [])
      ++ (if p.requirements.managerApproval && !e.managerApproval then
          [managerApprovalReason]
        else [])
    ∧ ∀ (trainingADate trainingBScore currentTime minScore : Int),
        trainingADate = currentTime - 31536000 → minScore ≤ trainingBScore →
        isComplianceValid trainingADate trainingBScore currentTime minScore = true := by
  constructor
  · rw [checkComplianceResolved_reasons]
    have hd : (now - (e.trainingA_date : ℚ)) / (24 * 60 * 60)
        = (p.requirements.trainingA_maxAge : ℚ) := by
      rw [h]
      field_simp
    rw [hd]
    simp [lt_irrefl]
  · intro trainingADate trainingBScore currentTime minScore h1 h2
    subst h1
    simp [isComplianceValid, h2]

/-- Witness for the C2 theorem at a concrete boundary input: completion
exactly 365 days before evaluation time 1700000000 under the fixture
thresholds, with the other two conditions passing, yields no reasons. -/
theorem trainingAge_boundary_inclusive_witness :
    ((1700000000 : ℚ) - (boundaryEmployee.trainingA_date : ℚ)
        = (samplePolicy.requirements.trainingA_maxAge : ℚ) * (24 * 60 * 60))
    ∧ (checkComplianceResolved boundaryEmployee samplePolicy 1700000000).2 = []
    ∧ isComplianceValid (1700000000 - 31536000) 80 1700000000 80 = true := by
  have hb : (1700000000 : ℚ) - (boundaryEmployee.trainingA_date : ℚ)
      = (samplePolicy.requirements.trainingA_maxAge : ℚ) * (24 * 60 * 60) := by
    norm_num [boundaryEmployee, samplePolicy]
  have hmain := trainingAge_boundary_inclusive boundaryEmployee samplePolicy 1700000000 hb
  refine ⟨hb, ?_, hmain.2 (1700000000 - 31536000) 80 1700000000 80 rfl le_rfl⟩
  rw [hmain.1]
  decide

/-- Claim C6: a record whose score exactly equals the policy minimum passes
the score check (the failure condition is strict less-than), both in the
predicate and in the contract test's `isComplianceValid`. -/
theorem minScore_boundary_inclusive (e : EmployeeTrainingRecord)
    (p : CompliancePolicy) (now : ℚ)
    (h : e.trainingB_score = p.requirements.trainingB_minScore) :
    (checkComplianceResolved e p now).2 =
      (if (now - (e.trainingA_date : ℚ)) / (24 * 60 * 60) > (p.requirements.trainingA_maxAge : ℚ) then
          [trainingAExpiredReason ((now - (e.trainingA_date : ℚ)) / (24 * 60 * 60))
            p.requirements.trainingA_maxAge]
        else [])
      ++ (if p.requirements.managerApproval && !e.managerApproval then
          [managerApprovalReason]
        else [])
    ∧ ∀ (trainingADate trainingBScore currentTime minScore : Int),
        trainingBScore = minScore → currentTime - 31536000 ≤ trainingADate →
        isComplianceValid trainingADate trainingBScore currentTime minScore = true := by
  constructor
  · rw [checkComplianceResolved_reasons, h]
    simp [lt_irrefl]
  · intro trainingADate trainingBScore currentTime minScore h1 h2
    subst h1
    simp [isComplianceValid, h2]

/-- Witness for the C6 theorem at a concrete input: score exactly 80 against
minimum 80, the other conditions passing, yields no reasons. -/
theorem minScore_boundary_inclusive_witness :
    boundaryEmployee.trainingB_score = samplePolicy.requirements.trainingB_minScore
    ∧ (checkComplianceResolved boundaryEmployee samplePolicy 1700000000).2 = []
    ∧ isComplianceValid 1690000000 80 1700000000 80 = true := by
  have hmain := minScore_boundary_inclusive boundaryEmployee samplePolicy 1700000000 rfl
  refine ⟨rfl, ?_, hmain.2 1690000000 80 1700000000 80 rfl (by decide)⟩
  rw [hmain.1]
  norm_num [boundaryEmployee, samplePolicy]

theorem getEmployee_isOk (svc : DataService) (employeeId : String)
    (hinit : svc.isInitialized = true) :
    ∃ v, DataService.getEmployee svc employeeId = Except.ok v := by
  simp only [DataService.getEmployee, hinit]
  cases hs : svc.employeeSource <;> simp

theorem getPolicy_isOk (svc : DataService) (policyId : String)
    (hinit : svc.isInitialized = true) :
    ∃ v, DataService.getPolicy svc policyId = Except.ok v := by
  simp only [DataService.getPolicy, hinit]
  cases hs : svc.policySource <;> simp

/-- Claim C3: when either the employee or the policy does not resolve on an
initialized service, `checkCompliance` returns the not-found result without
raising and without entering the three condition checks. -/
theorem checkCompliance_not_found (svc : DataService) (employeeId policyId : String)
    (now : ℚ) (hinit : svc.isInitialized = true)
    (h : DataService.getEmployee svc employeeId = Except.ok none
      ∨ DataService.getPolicy svc policyId = Except.ok none) :
    DataService.checkCompliance svc employeeId policyId now
      = Except.ok (false, ["Employee or policy not found"]) := by
  obtain ⟨ev, hev⟩ := getEmployee_isOk svc employeeId hinit
  obtain ⟨pv, hpv⟩ := getPolicy_isOk svc policyId hinit
  rcases h with h | h
  · have hnone : ev = none := Except.ok.inj (hev.symm.trans h)
    subst hnone
    cases pv <;> simp [DataService.checkCompliance, hev, hpv, pure, Except.pure]
  · have hnone : pv = none := Except.ok.inj (hpv.symm.trans h)
    subst hnone
    cases ev <;> simp [DataService.checkCompliance, hev, hpv, pure, Except.pure]

/-- Witness for the C3 theorem: the fixture service holds no employee
`EMP999`, and the check reports the single not-found reason. -/
theorem checkCompliance_not_found_witness :
    (sampleService.isInitialized = true
      ∧ DataService.getEmployee sampleService "EMP999" = Except.ok none)
    ∧ DataService.checkCompliance sampleService "EMP999" "POLICY_001" 1700000000
      = Except.ok (false, ["Employee or policy not found"]) := by
  have hemp : DataService.getEmployee sampleService "EMP999" = Except.ok none := rfl
  exact ⟨⟨rfl, hemp⟩,
    checkCompliance_not_found sampleService "EMP999" "POLICY_001" 1700000000 rfl (Or.inl hemp)⟩

/-- Amended claim C7: a backing store error during record or policy retrieval
does not propagate; `getEmployee` and `getPolicy` catch it and return `null`,
and `checkCompliance` then reports the not-found reason, conflating the store
failure with an unresolved identifier. -/
theorem backingStore_error_swallowed (svc : DataService) (msg : String)
    (employeeId policyId : String) (now : ℚ)
    (hinit : svc.isInitialized = true)
    (herr : svc.employeeSource = Except.error msg ∨ svc.policySource = Except.error msg) :
    (svc.employeeSource = Except.error msg →
      DataService.getEmployee svc employeeId = Except.ok none)
    ∧ (svc.policySource = Except.error msg →
      DataService.getPolicy svc policyId = Except.ok none)
    ∧ DataService.checkCompliance svc employeeId policyId now
      = Except.ok (false, ["Employee or policy not found"]) := by
  refine ⟨?_, ?_, ?_⟩
  · intro hemp
    simp [DataService.getEmployee, hinit, hemp]
  · intro hpol
    simp [DataService.getPolicy, hinit, hpol]
  · rcases herr with hemp | hpol
    · have h1 : DataService.getEmployee svc employeeId = Except.ok none := by
        simp [DataService.getEmployee, hinit, hemp]
      obtain ⟨pv, hpv⟩ := getPolicy_isOk svc policyId hinit
      cases pv <;> simp [DataService.checkCompliance, h1, hpv, pure, Except.pure]
    · have h1 : DataService.getPolicy svc policyId = Except.ok none := by
        simp [DataService.getPolicy, hinit, hpol]
      obtain ⟨ev, hev⟩ := getEmployee_isOk svc employeeId hinit
      cases ev <;> simp [DataService.checkCompliance, h1, hev, pure, Except.pure]

/-- Witness for the amended C7 theorem on a concrete store whose employee and
policy retrievals both error: both lookups are converted to `null` and the
check reports not-found. -/
theorem backingStore_error_swallowed_witness :
    (failingStoreService.isInitialized = true
      ∧ (failingStoreService.employeeSource = Except.error "backing store unreachable"
        ∨ failingStoreService.policySource = Except.error "backing store unreachable"))
    ∧ (DataService.getEmployee failingStoreService "EMP001" = Except.ok none
      ∧ DataService.getPolicy failingStoreService "POLICY_001" = Except.ok none
      ∧ DataService.checkCompliance failingStoreService "EMP001" "POLICY_001" 1700000000
        = Except.ok (false, ["Employee or policy not found"])) := by
  have hmain := backingStore_error_swallowed failingStoreService "backing store unreachable"
    "EMP001" "POLICY_001" 1700000000 rfl (Or.inl rfl)
  exact ⟨⟨rfl, Or.inl rfl⟩, hmain.1 rfl, hmain.2.1 rfl, hmain.2.2⟩

/-- Counterexample to claim C7 as stated: on a service whose underlying
retrieval errors, `checkCompliance` does return `compliant = false` with the
not-found reason for that error instead of a distinct propagated failure. -/
theorem backingStore_failure_reported_as_not_found :
    failingStoreService.employeeSource = Except.error "backing store unreachable"
    ∧ DataService.getEmployee failingStoreService "EMP001" = Except.ok none
    ∧ DataService.checkCompliance failingStoreService "EMP001" "POLICY_001" 1700000000
      = Except.ok (false, ["Employee or policy not found"]) :=
  ⟨rfl, rfl, rfl⟩

/-- Amended claim C4: `checkCompliance` reads its evaluation time from the
wall clock inside the method rather than from the caller; for a fixed captured
time the predicate is a pure function of record, policy and that time, and its
verdict depends only on the elapsed age: shifting the completion time and the
captured time together leaves `(compliant, reasons)` unchanged. -/
theorem checkCompliance_pure_over_captured_time (e : EmployeeTrainingRecord)
    (p : CompliancePolicy) (now : ℚ) (δ : Int) :
    checkComplianceResolved { e with trainingA_date := e.trainingA_date + δ } p
      (now + (δ : ℚ)) = checkComplianceResolved e p now := by
  have hd : (now + (δ : ℚ) - ((e.trainingA_date + δ : ℤ) : ℚ)) = now - (e.trainingA_date : ℚ) := by
    push_cast
    ring
  simp only [checkComplianceResolved]
  rw [hd]

/-- Counterexample to claim C4 as stated: two `checkCompliance` calls with the
same record and policy but different wall clock instants differ, so the result
does depend on when the call is made; the `86400` argument is the value
`Date.now() / 1000` captured inside the method, not a caller-supplied input. -/
theorem checkCompliance_result_varies_with_call_time :
    DataService.checkCompliance epochService "EMP100" "POLICY_100" 86400
      = Except.ok (true, [])
    ∧ DataService.checkCompliance epochService "EMP100" "POLICY_100" 86400000
      ≠ DataService.checkCompliance epochService "EMP100" "POLICY_100" 86400 := by
  have hge : DataService.getEmployee epochService "EMP100" = Except.ok (some epochEmployee) := rfl
  have hgp : DataService.getPolicy epochService "POLICY_100" = Except.ok (some samplePolicy) := rfl
  have h1 : DataService.checkCompliance epochService "EMP100" "POLICY_100" 86400
      = Except.ok (checkComplianceResolved epochEmployee samplePolicy 86400) := by
    simp [DataService.checkCompliance, hge, hgp, pure, Except.pure]
  have h2 : DataService.checkCompliance epochService "EMP100" "POLICY_100" 86400000
      = Except.ok (checkComplianceResolved epochEmployee samplePolicy 86400000) := by
    simp [DataService.checkCompliance, hge, hgp, pure, Except.pure]
  have hv1 : checkComplianceResolved epochEmployee samplePolicy 86400 = (true, []) := by
    simp only [checkComplianceResolved, epochEmployee, samplePolicy]
    norm_num
  have hv2 : (checkComplianceResolved epochEmployee samplePolicy 86400000).1 = false := by
    simp only [checkComplianceResolved, epochEmployee, samplePolicy]
    norm_num
  constructor
  · rw [h1, hv1]
  · rw [h1, h2, hv1]
    intro hcontra
    have := Except.ok.inj hcontra
    rw [this] at hv2
    exact absurd hv2 (by decide)

theorem getAllEmployees_eq (svc : DataService) (hinit : svc.isInitialized = true) :
    DataService.getAllEmployees svc = Except.ok (DataService.employeesOf svc) := by
  simp only [DataService.getAllEmployees, DataService.employeesOf, hinit]
  cases hs : svc.employeeSource <;> simp

theorem checkCompliance_isOk (svc : DataService) (employeeId policyId : String)
    (now : ℚ) (hinit : svc.isInitialized = true) :
    ∃ r, DataService.checkCompliance svc employeeId policyId now = Except.ok r := by
  obtain ⟨ev, hev⟩ := getEmployee_isOk svc employeeId hinit
  obtain ⟨pv, hpv⟩ := getPolicy_isOk svc policyId hinit
  cases ev <;> cases pv <;>
    simp [DataService.checkCompliance, hev, hpv, pure, Except.pure]

theorem complianceCountStep_eq (svc : DataService) (policyId : String) (now : ℚ)
    (hinit : svc.isInitialized = true) (acc : Nat) (e : EmployeeTrainingRecord) :
    DataService.complianceCountStep svc policyId now acc e =
      Except.ok (if DataService.isCompliantB svc e.employeeId policyId now then acc + 1 else acc) := by
  obtain ⟨r, hr⟩ := checkCompliance_isOk svc e.employeeId policyId now hinit
  simp [DataService.complianceCountStep, DataService.isCompliantB, hr, pure, Except.pure]

theorem complianceCount_fold (svc : DataService) (policyId : String) (now : ℚ)
    (hinit : svc.isInitialized = true) :
    ∀ (l : List EmployeeTrainingRecord) (n : Nat),
      List.foldlM (DataService.complianceCountStep svc policyId now) n l =
        Except.ok (n + (l.filter
          (fun e => DataService.isCompliantB svc e.employeeId policyId now)).length) := by
  intro l
  induction l with
  | nil => intro n; simp [pure, Except.pure]
  | cons head tail ih =>
      intro n
      rw [List.foldlM_cons, complianceCountStep_eq svc policyId now hinit n head]
      simp only [exceptBindOk, ih, List.filter_cons]
      cases hb : DataService.isCompliantB svc head.employeeId policyId now
      · simp [hb, Except.ok.injEq]
      · simp [hb, Except.ok.injEq]
        omega

/-- Claim C5: on an initialized service the statistics report the employee
count, the count of employees whose `checkCompliance` verdict is
`compliant = true`, their difference, and a rate of 0 for an empty employee
set and `100 * compliantCount / total` with exact (non-truncating) division
otherwise. -/
theorem getComplianceStatistics_spec (svc : DataService) (policyId : String)
    (now : ℚ) (hinit : svc.isInitialized = true) :
    DataService.getComplianceStatistics svc policyId now = Except.ok
      { totalEmployees := (DataService.employeesOf svc).length
        compliantEmployees := ((DataService.employeesOf svc).filter
            (fun e => DataService.isCompliantB svc e.employeeId policyId now)).length
        nonCompliantEmployees := (DataService.employeesOf svc).length -
          ((DataService.employeesOf svc).filter
            (fun e => DataService.isCompliantB svc e.employeeId policyId now)).length
        complianceRate :=
          if (DataService.employeesOf svc).length = 0 then 0
          else 100 * (((DataService.employeesOf svc).filter
              (fun e => DataService.isCompliantB svc e.employeeId policyId now)).length : ℚ) /
            ((DataService.employeesOf svc).length : ℚ) } := by
  rw [DataService.getComplianceStatistics, getAllEmployees_eq svc hinit]
  rw [exceptBindOk, complianceCount_fold svc policyId now hinit, exceptBindOk]
  rw [Nat.zero_add]
  have hrate : (if (DataService.employeesOf svc).length > 0 then
        ((((DataService.employeesOf svc).filter
          (fun e => DataService.isCompliantB svc e.employeeId policyId now)).length : ℚ) /
          ((DataService.employeesOf svc).length : ℚ)) * 100 else 0)
      = (if (DataService.employeesOf svc).length = 0 then (0 : ℚ)
        else 100 * (((DataService.employeesOf svc).filter
            (fun e => DataService.isCompliantB svc e.employeeId policyId now)).length : ℚ) /
          ((DataService.employeesOf svc).length : ℚ)) := by
    rcases Nat.eq_zero_or_pos (DataService.employeesOf svc).length with h0 | h0
    · simp [h0]
    · rw [if_pos h0, if_neg (Nat.pos_iff_ne_zero.mp h0)]
      ring
  simp only [pure, Except.pure, hrate]

theorem sampleService_emp001_compliant :
    DataService.isCompliantB sampleService "EMP001" "POLICY_001" 1700000000 = true := by
  have hge : DataService.getEmployee sampleService "EMP001"
      = Except.ok (some (emp001 1700000000 1700000000000)) := rfl
  have hgp : DataService.getPolicy sampleService "POLICY_001"
      = Except.ok (some (policy001 1700000000000)) := rfl
  have hr : checkComplianceResolved (emp001 1700000000 1700000000000)
      (policy001 1700000000000) 1700000000 = (true, []) := by
    simp only [checkComplianceResolved, emp001, policy001]
    norm_num
  simp [DataService.isCompliantB, DataService.checkCompliance, hge, hgp, hr, pure, Except.pure]

theorem sampleService_emp002_compliant :
    DataService.isCompliantB sampleService "EMP002" "POLICY_001" 1700000000 = true := by
  have hge : DataService.getEmployee sampleService "EMP002"
      = Except.ok (some (emp002 1700000000 1700000000000)) := rfl
  have hgp : DataService.getPolicy sampleService "POLICY_001"
      = Except.ok (some (policy001 1700000000000)) := rfl
  have hr : checkComplianceResolved (emp002 1700000000 1700000000000)
      (policy001 1700000000000) 1700000000 = (true, []) := by
    simp only [checkComplianceResolved, emp002, policy001]
    norm_num
  simp [DataService.isCompliantB, DataService.checkCompliance, hge, hgp, hr, pure, Except.pure]

theorem sampleService_emp003_noncompliant :
    DataService.isCompliantB sampleService "EMP003" "POLICY_001" 1700000000 = false := by
  have hge : DataService.getEmployee sampleService "EMP003"
      = Except.ok (some (emp003 1700000000 1700000000000)) := rfl
  have hgp : DataService.getPolicy sampleService "POLICY_001"
      = Except.ok (some (policy001 1700000000000)) := rfl
  have hr : (checkComplianceResolved (emp003 1700000000 1700000000000)
      (policy001 1700000000000) 1700000000).1 = false := by
    simp only [checkComplianceResolved, emp003, policy001]
    norm_num
  simp [DataService.isCompliantB, DataService.checkCompliance, hge, hgp, hr, pure, Except.pure]

/-- Witness for the C5 theorem on the fixture service: 3 employees, 2
compliant, 1 not, rate 200/3 percent. -/
theorem getComplianceStatistics_spec_witness :
    sampleService.isInitialized = true
    ∧ DataService.getComplianceStatistics sampleService "POLICY_001" 1700000000
      = Except.ok {
          totalEmployees := 3
          compliantEmployees := 2
          nonCompliantEmployees := 1
          complianceRate := 200 / 3 } := by
  refine ⟨rfl, ?_⟩
  rw [getComplianceStatistics_spec sampleService "POLICY_001" 1700000000 rfl]
  have hemp : DataService.employeesOf sampleService
      = [emp001 1700000000 1700000000000, emp002 1700000000 1700000000000,
         emp003 1700000000 1700000000000] := rfl
  rw [hemp]
  have h1 := sampleService_emp001_compliant
  have h2 := sampleService_emp002_compliant
  have h3 := sampleService_emp003_noncompliant
  have he1 : (emp001 1700000000 1700000000000).employeeId = "EMP001" := rfl
  have he2 : (emp002 1700000000 1700000000000).employeeId = "EMP002" := rfl
  have he3 : (emp003 1700000000 1700000000000).employeeId = "EMP003" := rfl
  simp only [List.filter, he1, he2, he3, h1, h2, h3, List.length_cons, List.length_nil]
  norm_num

/-- Counterexample to claim C8 as stated: `updateAuditSession` performs no
transition validation, so a create/update/update sequence moves the stored
status from `completed` back to `pending`. -/
theorem auditSession_status_moves_backwards :
    (DataService.createAuditSession true emptySessionStore "POLICY_001" "AUDITOR_1"
        ["EMP001"] 1700000000000 "x1").map Prod.fst = Except.ok sampleSession
    ∧ sampleSession.status = "pending"
    ∧ DataService.getAuditSession true sessionStore2 sampleSession.id
      = Except.ok (some { sampleSession with status := "completed" })
    ∧ DataService.getAuditSession true sessionStore3 sampleSession.id
      = Except.ok (some { sampleSession with status := "pending" }) :=
  ⟨rfl, rfl, rfl, rfl⟩

/-- Amended claim C8: every session returned by `createAuditSession` has
status `pending` and exactly the employee ids it was created with, but
`updateAuditSession` stores whatever session it is given without validating
the transition, so the stored status after an update is the supplied one
regardless of the previous stored value. -/
theorem createAuditSession_pending_update_unchecked :
    (∀ (store : SessionStore) (policyId auditorId : String) (employeeIds : List String)
        (nowMs : Int) (randSuffix : String) (session : AuditSession) (outStore : SessionStore),
      DataService.createAuditSession true store policyId auditorId employeeIds nowMs randSuffix
          = Except.ok (session, outStore) →
      session.status = "pending" ∧ session.employees = employeeIds)
    ∧ (∀ (store : SessionStore) (session : AuditSession) (outStore : SessionStore),
        DataService.updateAuditSession true store session = Except.ok outStore →
        DataService.getAuditSession true outStore session.id = Except.ok (some session)) := by
  constructor
  · intro store policyId auditorId employeeIds nowMs randSuffix session outStore h
    simp only [DataService.createAuditSession, if_neg (by decide : ¬(true = false))] at h
    have hp := Except.ok.inj h
    have hsession := congrArg Prod.fst hp
    simp only at hsession
    rw [← hsession]
    exact ⟨rfl, rfl⟩
  · intro store session outStore h
    simp only [DataService.updateAuditSession, if_neg (by decide : ¬(true = false))] at h
    have hstore := Except.ok.inj h
    rw [← hstore]
    simp [DataService.getAuditSession, storeEncryptedSession]

/-- Witness for the amended C8 theorem at concrete inputs: the created fixture
session is pending with its one employee id, and updating back to pending
makes the stored status pending again. -/
theorem createAuditSession_pending_update_unchecked_witness :
    (sampleSession.status = "pending" ∧ sampleSession.employees = ["EMP001"])
    ∧ DataService.getAuditSession true
        (storeEncryptedSession sessionStore2 ("audit:" ++ sampleSession.id)
          { sampleSession with status := "pending" })
        ({ sampleSession with status := "pending" } : AuditSession).id
      = Except.ok (some { sampleSession with status := "pending" }) :=
  ⟨createAuditSession_pending_update_unchecked.1 emptySessionStore "POLICY_001" "AUDITOR_1"
      ["EMP001"] 1700000000000 "x1" sampleSession
      (storeEncryptedSession emptySessionStore ("audit:" ++ sampleSession.id) sampleSession) rfl,
    createAuditSession_pending_update_unchecked.2 sessionStore2
      { sampleSession with status := "pending" }
      (storeEncryptedSession sessionStore2 ("audit:" ++ sampleSession.id)
        { sampleSession with status := "pending" }) rfl⟩

theorem proofGenerationFailed_ne_empty (s : String) :
    ("Proof generation failed: " ++ s) ≠ "" := by
  intro h
  have h2 := congrArg String.length h
  rw [String.length_append] at h2
  simp at h2
  exact absurd h2.1 (by decide)

theorem adapter_generateProof_errors (useOfficialSDK : Bool) (c : Bool) :
    MidnightSDKAdapter.generateProof useOfficialSDK c
      = Except.error (if c then notYetImplementedProofMsg
          else "Not connected to Midnight Protocol network") := by
  cases useOfficialSDK <;> cases c <;> rfl

/-- Claim C9: `runComplianceAudit` never reports success: the SDK proof
generation always errors on both back-ends (with the not-yet-implemented
message whenever connected), every failure is caught, and the result is
`success = false` with empty `proofHash`, no transaction hash and a non-empty
error message; the function itself is total and never raises. -/
theorem runComplianceAudit_never_succeeds (svc : DataService)
    (useOfficialSDK isConnected : Bool)
    (employeeId policyHash auditId auditorPublicKey : String)
    (nowSec nowMs elapsedMs : Int) :
    (ZKComplianceProver.runComplianceAudit svc useOfficialSDK isConnected employeeId
      policyHash auditId auditorPublicKey nowSec nowMs elapsedMs).success = false
    ∧ (ZKComplianceProver.runComplianceAudit svc useOfficialSDK isConnected employeeId
      policyHash auditId auditorPublicKey nowSec nowMs elapsedMs).proofHash = ""
    ∧ (ZKComplianceProver.runComplianceAudit svc useOfficialSDK isConnected employeeId
      policyHash auditId auditorPublicKey nowSec nowMs elapsedMs).transactionHash = none
    ∧ (∃ msg, (ZKComplianceProver.runComplianceAudit svc useOfficialSDK isConnected employeeId
        policyHash auditId auditorPublicKey nowSec nowMs elapsedMs).error = some msg ∧ msg ≠ "")
    ∧ MidnightSDKAdapter.generateProof useOfficialSDK true
      = Except.error notYetImplementedProofMsg := by
  have hinner : ∃ msg, ZKComplianceProver.runComplianceAuditInner svc useOfficialSDK
      isConnected employeeId policyHash auditId auditorPublicKey nowSec nowMs
        = Except.error msg ∧ msg ≠ "" := by
    cases hL : ZKComplianceProver.loadPrivateDataInner svc employeeId with
    | error e =>
        refine ⟨"Failed to load private training data", ?_, by decide⟩
        simp [ZKComplianceProver.runComplianceAuditInner,
          ZKComplianceProver.loadPrivateData, hL]
    | ok d =>
        have hload : ZKComplianceProver.loadPrivateData svc employeeId = Except.ok d := by
          simp [ZKComplianceProver.loadPrivateData, hL]
        cases hV : ZKComplianceProver.validateInputData d { current_time := nowSec, policy_hash := policyHash, audit_id := auditId, auditor_public_key := auditorPublicKey } with
        | error e =>
            refine ⟨"Proof generation failed: " ++ e, ?_, proofGenerationFailed_ne_empty e⟩
            simp [ZKComplianceProver.runComplianceAuditInner, hload,
              ZKComplianceProver.generateComplianceProof,
              ZKComplianceProver.generateComplianceProofInner, hV]
        | ok u =>
            refine ⟨"Proof generation failed: " ++ (if isConnected then notYetImplementedProofMsg
              else "Not connected to Midnight Protocol network"), ?_,
              proofGenerationFailed_ne_empty _⟩
            simp [ZKComplianceProver.runComplianceAuditInner, hload,
              ZKComplianceProver.generateComplianceProof,
              ZKComplianceProver.generateComplianceProofInner, hV,
              adapter_generateProof_errors useOfficialSDK isConnected]
  obtain ⟨msg, hmsg, hne⟩ := hinner
  refine ⟨?_, ?_, ?_, ⟨msg, ?_, hne⟩, adapter_generateProof_errors useOfficialSDK true⟩ <;>
    simp [ZKComplianceProver.runComplianceAudit, hmsg]

/-- Claim C10: a record with `trainingB_score = 0` (a legal score) or
`trainingA_date = 0` trips the truthiness guard of `validatePrivateData`,
which reports missing required fields, and `loadPrivateData` therefore fails
for that employee. -/
theorem validatePrivateData_rejects_legal_zero (e : EmployeeTrainingRecord)
    (h : e.trainingB_score = 0 ∨ e.trainingA_date = 0) :
    ZKComplianceProver.validatePrivateData (ZKComplianceProver.toPrivateTrainingData e)
      = Except.error "Invalid private data: missing required fields"
    ∧ ∀ (svc : DataService) (employeeId : String),
        DataService.getEmployee svc employeeId = Except.ok (some e) →
        ZKComplianceProver.loadPrivateData svc employeeId
          = Except.error "Failed to load private training data" := by
  have hval : ZKComplianceProver.validatePrivateData (ZKComplianceProver.toPrivateTrainingData e)
      = Except.error "Invalid private data: missing required fields" := by
    rcases h with h | h <;>
      simp [ZKComplianceProver.validatePrivateData, ZKComplianceProver.toPrivateTrainingData, h]
  refine ⟨hval, ?_⟩
  intro svc employeeId hget
  simp [ZKComplianceProver.loadPrivateData, ZKComplianceProver.loadPrivateDataInner,
    hget, hval]

/-- Witness for the C10 theorem: the concrete zero-score record is rejected
and its load fails on a service that resolves it. -/
theorem validatePrivateData_rejects_legal_zero_witness :
    (zeroScoreEmployee.trainingB_score = 0 ∨ zeroScoreEmployee.trainingA_date = 0)
    ∧ (ZKComplianceProver.validatePrivateData
        (ZKComplianceProver.toPrivateTrainingData zeroScoreEmployee)
        = Except.error "Invalid private data: missing required fields"
      ∧ ZKComplianceProver.loadPrivateData zeroScoreService "EMP300"
        = Except.error "Failed to load private training data") := by
  have h : zeroScoreEmployee.trainingB_score = 0 ∨ zeroScoreEmployee.trainingA_date = 0 :=
    Or.inl rfl
  have hmain := validatePrivateData_rejects_legal_zero zeroScoreEmployee h
  exact ⟨h, hmain.1, hmain.2 zeroScoreService "EMP300" rfl⟩
